import Mathlib

/-!
# Verification of the fast_contour_plugin contour-generation algorithm

A shallow embedding of `FastContourAlgorithm.processAlgorithm`
(`fast_contour_plugin/fast_contour_algorithm.py`), covering the level
derivation (Interval / Custom-levels modes), the pixel-center coordinate
axes, the per-level contour loop with its skip-and-continue error policy,
and the per-line shape filtering before feature emission.

Machine floats are modelled by exact rationals (`ℚ`), with the non-finite
Python float values (`nan`, `inf`, `-inf`) represented explicitly.  The
external `contourpy` library is a parameter of the embedding: the main
definitions are parametric in the generator's behaviour, and a concrete
model of its documented input validation is provided separately for
concrete runs.  Host-framework plumbing (raster block reading, feature
sinks, progress and cancellation callbacks) is outside the engine boundary
and is not modelled: the grid, extent and parameters are inputs, the list
of emitted features and recorded per-level errors are the output.
-/

namespace FastContour

attribute [local semireducible] Rat.add Rat.sub Rat.mul Rat.inv

/-- A world-coordinate point, as contourpy returns them (a row of an
`(n, 2)` vertex array). -/
abbrev Point : Type := ℚ × ℚ

/-- The value of a CPython `float`: either an exact finite value (the
embedding uses `ℚ` for doubles) or one of the non-finite values `nan`,
`inf`, `-inf`, which `float(str)` can produce from tokens such as
`"nan"` or `"-inf"`. -/
inductive PyFloat : Type where
  | finite (q : ℚ)
  | nan
  | inf
  | ninf
  deriving DecidableEq, Repr

/-- The numeric value of a decimal-digit character. -/
def digitVal (c : Char) : Nat := c.toNat - 48

/-- Split a leading run of decimal digits from a character list. -/
def takeDigits : List Char → List Char × List Char
  | [] => ([], [])
  | c :: cs =>
    if c.isDigit then
      let p := takeDigits cs
      (c :: p.1, p.2)
    else ([], c :: cs)

/-- The natural number denoted by a digit run (most significant first). -/
def natOfDigits (ds : List Char) : Nat :=
  ds.foldl (fun n c => 10 * n + digitVal c) 0

/-- Parse the exponent part of a float literal: an optional sign followed
by a nonempty digit run, consuming the whole remaining input. -/
def parseExponent (cs : List Char) : Option Int :=
  let p : Int × List Char :=
    match cs with
    | '+' :: r => (1, r)
    | '-' :: r => (-1, r)
    | r => (1, r)
  let d := takeDigits p.2
  if d.1 = [] ∨ d.2 ≠ [] then none
  else some (p.1 * (natOfDigits d.1 : Int))

/-- Scale a rational by a (possibly negative) power of ten. -/
def scalePow10 (q : ℚ) (e : Int) : ℚ :=
  if 0 ≤ e then q * (10 : ℚ) ^ e.toNat else q / (10 : ℚ) ^ (-e).toNat

/-- Parse an unsigned decimal float literal (`digits [. digits] [e …]`,
`.` requiring at least one digit overall), the grammar CPython's
`float()` accepts for finite numbers.  Underscore digit separators,
which CPython also accepts, are not modelled (no claim involves them). -/
def parseDecimalLiteral (cs : List Char) : Option ℚ :=
  let ip := takeDigits cs
  let fp : List Char × List Char :=
    match ip.2 with
    | '.' :: r => takeDigits r
    | _ => ([], ip.2)
  if ip.1 = [] ∧ fp.1 = [] then none
  else
    let mant : ℚ := (natOfDigits ip.1 : ℚ) + (natOfDigits fp.1 : ℚ) / (10 : ℚ) ^ fp.1.length
    match fp.2 with
    | [] => some mant
    | 'e' :: r =>
      match parseExponent r with
      | some e => some (scalePow10 mant e)
      | none => none
    | _ => none

/-- ASCII whitespace, as Python's `str.strip()` and `float()` remove it
(the full Unicode whitespace set of CPython is not needed by any claim). -/
def isSpaceChar (c : Char) : Bool :=
  c = ' ' ∨ c = '\t' ∨ c = '\n' ∨ c = '\r' ∨ c = '\x0b' ∨ c = '\x0c'

/-- Strip leading and trailing whitespace (Python's `str.strip()`). -/
def trimChars (cs : List Char) : List Char :=
  ((cs.dropWhile isSpaceChar).reverse.dropWhile isSpaceChar).reverse

/-- Python's `str.split(',')`: split at every comma, keeping empty pieces
(so `"".split(',') == [""]` and `"1,".split(',') == ["1", ""]`). -/
def splitComma : List Char → List (List Char)
  | [] => [[]]
  | c :: cs =>
    if c = ',' then [] :: splitComma cs
    else
      match splitComma cs with
      | t :: ts => (c :: t) :: ts
      | [] => [[c]]

/-- The model of CPython `float(s)` on a token: strip, lower-case, optional sign,
then `inf`/`infinity`/`nan` or a decimal literal.  Returns `none` where
`float()` raises `ValueError`. -/
def pyFloatOfChars (cs0 : List Char) : Option PyFloat :=
  let cs := (trimChars cs0).map Char.toLower
  let p : Bool × List Char :=
    match cs with
    | '+' :: r => (false, r)
    | '-' :: r => (true, r)
    | r => (false, r)
  if p.2 = ['i', 'n', 'f'] ∨ p.2 = ['i', 'n', 'f', 'i', 'n', 'i', 't', 'y'] then
    some (if p.1 then PyFloat.ninf else PyFloat.inf)
  else if p.2 = ['n', 'a', 'n'] then some PyFloat.nan
  else (parseDecimalLiteral p.2).map (fun q => PyFloat.finite (if p.1 then -q else q))

/-- The model of CPython `float(s)` on a string. -/
def pyFloatOfString (s : String) : Option PyFloat := pyFloatOfChars s.data

/-- The raster extent (`raster_layer.extent()`): world-coordinate bounds. -/
structure Extent : Type where
  xMin : ℚ
  xMax : ℚ
  yMin : ℚ
  yMax : ℚ
  deriving DecidableEq, Repr

/-- The extent width `extent.width()`. -/
def Extent.w (e : Extent) : ℚ := e.xMax - e.xMin

/-- The extent height `extent.height()`. -/
def Extent.h (e : Extent) : ℚ := e.yMax - e.yMin

/-- The raster input as `processAlgorithm` sees it after the block read
(lines 179–200 of `fast_contour_algorithm.py`): dimensions, extent, the
`height × width` array of band values, and the provider's no-data value
(`None` when the provider reports none). -/
structure Raster : Type where
  width : Nat
  height : Nat
  extent : Extent
  data : List (List ℚ)
  nodata : Option ℚ
  deriving DecidableEq, Repr

/-- The contour mode enum: option 0 is `Interval`, option 1 is
`Custom levels` (the spec's `Explicit`). -/
inductive Mode : Type where
  | interval
  | explicitLevels
  deriving DecidableEq, Repr

/-- The algorithm parameters relevant to the engine: mode, contour
interval and the custom-levels string. -/
structure Params : Type where
  mode : Mode
  interval : ℚ
  levelsStr : String
  deriving DecidableEq, Repr

/-- The errors `processAlgorithm` can terminate with, one per raise site:
the three `QgsProcessingException`s of the level-derivation code
(lines 219–241), the unhandled NumPy failure that a fully masked
min/max reduction propagates into the Interval-mode level computation
(`np.nanmin` of a fully masked array yields the masked constant, which
poisons `np.arange`'s arguments — an uncaught error, not a designed one),
and the re-raised generator-creation failure (line 283). -/
inductive ProcError : Type where
  | invalidInterval
  | emptyLevels
  | invalidLevelsFormat
  | maskedMinMax
  | generatorCreation (msg : String)
  deriving DecidableEq, Repr

/-- The flattened unmasked band values: `np.ma.masked_equal(data, nodata)`
is applied only when a no-data value exists (line 198), and the
`nanmin`/`nanmax` reductions ignore exactly the masked entries. -/
def unmaskedValues (r : Raster) : List ℚ :=
  match r.nodata with
  | none => r.data.flatten
  | some nd => r.data.flatten.filter (fun v => v ≠ nd)

/-- The model of `np.linspace a b n`: `n` evenly spaced samples from `a` to `b`
inclusive (exact in rational arithmetic). -/
def linspace (a b : ℚ) (n : Nat) : List ℚ :=
  if n = 1 then [a]
  else (List.range n).map (fun i : ℕ => a + (i : ℚ) * (b - a) / ((n : ℚ) - 1))

/-- The x coordinate axis (lines 203–210): pixel centers from
`xMin + x_res/2` to `xMax - x_res/2`, `width` samples. -/
def xCoords (r : Raster) : List ℚ :=
  let xres := r.extent.w / (r.width : ℚ)
  linspace (r.extent.xMin + xres / 2) (r.extent.xMax - xres / 2) r.width

/-- The y coordinate axis (lines 204–215): pixel centers from
`yMax - y_res/2` DOWN to `yMin + y_res/2`, `height` samples
(descending, matching the row order of the raster block). -/
def yCoords (r : Raster) : List ℚ :=
  let yres := r.extent.h / (r.height : ℚ)
  linspace (r.extent.yMax - yres / 2) (r.extent.yMin + yres / 2) r.height

/-- The model of `np.arange start stop step` for positive `step`: the values
`start + i*step` for `0 ≤ i < ⌈(stop - start)/step⌉`. -/
def arange (start stop step : ℚ) : List ℚ :=
  (List.range (⌈(stop - start) / step⌉).toNat).map (fun i : ℕ => start + (i : ℚ) * step)

/-- The Interval-mode level sequence (lines 224–229):
`np.arange(floor(vmin/interval)*interval,
ceil(vmax/interval)*interval + interval, interval)`. -/
def intervalLevels (interval vmin vmax : ℚ) : List ℚ :=
  arange ((⌊vmin / interval⌋ : ℚ) * interval)
    ((⌈vmax / interval⌉ : ℚ) * interval + interval) interval

/-- Parsing of the custom-levels string (line 237):
`[float(x.strip()) for x in levels_str.split(',')]`; `none` when any
token raises `ValueError`. -/
def parseLevels (s : String) : Option (List PyFloat) :=
  (splitComma s.data).mapM (fun t => pyFloatOfChars (trimChars t))

/-- The level derivation (lines 217–242).  Interval mode: reject a
non-positive interval, then take `nanmin`/`nanmax` of the masked data —
when every cell is masked the reduction has no value and the computation
fails with the propagated masked-value error.  Custom-levels mode:
reject an empty string, then parse the comma-separated tokens. -/
def computeLevels (p : Params) (r : Raster) : Except ProcError (List PyFloat) :=
  match p.mode with
  | Mode.interval =>
    if p.interval ≤ 0 then Except.error ProcError.invalidInterval
    else
      match (unmaskedValues r).min?, (unmaskedValues r).max? with
      | some vmin, some vmax =>
        Except.ok ((intervalLevels p.interval vmin vmax).map PyFloat.finite)
      | _, _ => Except.error ProcError.maskedMinMax
  | Mode.explicitLevels =>
    if p.levelsStr = "" then Except.error ProcError.emptyLevels
    else
      match parseLevels p.levelsStr with
      | some ls => Except.ok ls
      | none => Except.error ProcError.invalidLevelsFormat

/-- One emitted line feature: the polyline vertices and the attributes
set at lines 347–348 (`elevation` = the level, `level_id` = the level's
index in the level list). -/
structure Feature : Type where
  points : List Point
  elevation : PyFloat
  level_id : Nat
  deriving DecidableEq, Repr

/-- The behaviour of a created contourpy generator: per level, either the
list of contour lines (each a vertex list, the `line_type="Separate"`
2-D `(n, 2)` arrays) or the exception message of a failed `lines` call. -/
def Gen : Type := PyFloat → Except String (List (List Point))

/-- The per-line emission filter (lines 309–351) for one level's `lines`
result: each 2-D vertex array with fewer than 2 points is skipped
(line 326), the rest become features with the level's `elevation` and
`level_id` attributes.  (`QgsGeometry.fromPolylineXY` of ≥ 2 points is
never null, so the null-geometry guard at line 340 does not drop any of
these.) -/
def levelFeatures (level : PyFloat) (idx : Nat) (lines : List (List Point)) : List Feature :=
  lines.filterMap (fun line =>
    if line.length < 2 then none
    else some { points := line, elevation := level, level_id := idx })

/-- The per-level loop (lines 288–352), from the level with index `i`
on: a failing `cont_gen.lines(level)` call is caught, recorded via
`feedback.reportError` and skipped (`continue`, lines 298–302), and the
loop moves on to the remaining levels.  Returns the emitted features and
the recorded `(level index, message)` error reports, each in loop order.
(Cancellation, progress reporting and the informational log lines are
host-side effects and are not modelled.) -/
def runLevels (gen : Gen) : Nat → List PyFloat → List Feature × List (Nat × String)
  | _, [] => ([], [])
  | i, l :: ls =>
    let rest := runLevels gen (i + 1) ls
    match gen l with
    | Except.error msg => (rest.1, (i, msg) :: rest.2)
    | Except.ok lines => (levelFeatures l i lines ++ rest.1, rest.2)

/-- The engine's successful output: the emitted features and the per-level
error reports. -/
structure Output : Type where
  features : List Feature
  errors : List (Nat × String)
  deriving DecidableEq, Repr

/-- The type of the external `contour_generator` constructor: from the
coordinate axes, the data and its mask, either a generator or the
exception message that line 283 re-raises as
`'Failed to create contour generator: …'`. -/
def CreateGen : Type := List ℚ → List ℚ → List (List ℚ) → Option ℚ → Except String Gen

/-- The model of `processAlgorithm` from the engine boundary on (lines 196–357),
parametric in the external contourpy constructor `create`: derive the
levels (lines 217–242), create the generator over the pixel-center axes
and the masked data (lines 276–283), then run the per-level loop.
Sink creation is host plumbing and is modelled as succeeding. -/
def processAlgorithm (create : CreateGen) (p : Params) (r : Raster) :
    Except ProcError Output :=
  match computeLevels p r with
  | Except.error e => Except.error e
  | Except.ok levels =>
    match create (xCoords r) (yCoords r) r.data r.nodata with
    | Except.error msg => Except.error (ProcError.generatorCreation msg)
    | Except.ok gen =>
      let res := runLevels gen 0 levels
      Except.ok { features := res.1, errors := res.2 }

/-- Modelled from the spec: the external contourpy `contour_generator`'s
input validation — "marching squares needs at least a 2×2 cell grid", so
creation fails when either axis has fewer than 2 samples.  The per-level
line extraction itself is the external library's marching-squares
traversal, which the repository does not contain; this concrete model
returns no lines (theorems that depend on generator output are stated
for arbitrary generators instead). -/
def contourpyCreate : CreateGen := fun x y _data _nodata =>
  if x.length < 2 ∨ y.length < 2 then Except.error "x and y must be at least 2x2"
  else Except.ok (fun _ => Except.ok [])

/-- The spec's error taxonomy, following its words: `InvalidInputError`
covers "bad dimensions, non-positive interval, unparsable explicit
levels, empty level set"; `EmptyDataError` is the designed error for an
entirely no-data grid; every other failure is unclassified.  The map
sends each error the code can actually raise to its spec class — no
raise site of the code corresponds to `EmptyDataError`. -/
inductive SpecErrorClass : Type where
  | invalidInput
  | emptyData
  | other
  deriving DecidableEq, Repr

/-- Spec-side classification of the code's raise sites. -/
def specClassify : ProcError → SpecErrorClass
  | ProcError.invalidInterval => SpecErrorClass.invalidInput
  | ProcError.emptyLevels => SpecErrorClass.invalidInput
  | ProcError.invalidLevelsFormat => SpecErrorClass.invalidInput
  | ProcError.maskedMinMax => SpecErrorClass.other
  | ProcError.generatorCreation _ => SpecErrorClass.other

/-- The Interval-mode level sequence as the spec words it: the arithmetic
sequence from `floor(vmin/step)*step` to `ceil(vmax/step)*step`
inclusive, stepping by `step`. -/
def specIntervalLevels (step vmin vmax : ℚ) : List ℚ :=
  (List.range ((⌈vmax / step⌉ - ⌊vmin / step⌋).toNat + 1)).map
    (fun i : ℕ => ((⌊vmin / step⌋ + (i : ℤ) : ℤ) : ℚ) * step)

/-! ## Concrete inputs used by witnesses and counterexamples -/

/-- A well-formed 2×2 grid with no masked cells. -/
def r2x2 : Raster := ⟨2, 2, ⟨0, 2, 0, 2⟩, [[0, 1], [2, 3]], none⟩

/-- A 2×2 grid whose cells all hold the no-data value 9. -/
def rAllMasked : Raster := ⟨2, 2, ⟨0, 2, 0, 2⟩, [[9, 9], [9, 9]], some 9⟩

/-- A well-formed grid that is only 1 sample wide. -/
def rThin : Raster := ⟨1, 2, ⟨0, 1, 0, 2⟩, [[1], [2]], none⟩

/-- A 2×2 grid whose value range spans several interval steps. -/
def rC1 : Raster := ⟨2, 2, ⟨0, 2, 0, 2⟩, [[-7, 0], [3, 23]], none⟩

/-- A generator whose `lines` call fails at level 1 and yields one
two-point line at every other level. -/
def genPartial : Gen := fun l =>
  if l = PyFloat.finite 1 then Except.error "boom"
  else Except.ok [[(0, 0), (1, 1)]]

/-- A constructor that always returns `genPartial`. -/
def createPartial : CreateGen := fun _ _ _ _ => Except.ok genPartial

/-- A generator that yields a single degenerate line whose two vertices
coincide. -/
def dupGen : Gen := fun _ => Except.ok [[(0, 0), (0, 0)]]

/-- A constructor that always returns `dupGen`. -/
def createDup : CreateGen := fun _ _ _ _ => Except.ok dupGen

/-! ## Helper lemmas -/

instance {ε α : Type} [DecidableEq ε] [DecidableEq α] : DecidableEq (Except ε α)
  | Except.error e, Except.error f =>
    if h : e = f then isTrue (congrArg Except.error h)
    else isFalse (fun hc => h (Except.error.inj hc))
  | Except.error _, Except.ok _ => isFalse (fun hc => Except.noConfusion hc)
  | Except.ok _, Except.error _ => isFalse (fun hc => Except.noConfusion hc)
  | Except.ok x, Except.ok y =>
    if h : x = y then isTrue (congrArg Except.ok h)
    else isFalse (fun hc => h (Except.ok.inj hc))

lemma linspace_length (a b : ℚ) (n : Nat) : (linspace a b n).length = n := by
  unfold linspace
  split <;> simp_all

lemma linspace_head? (a b : ℚ) (n : Nat) (h : 1 ≤ n) :
    (linspace a b n).head? = some a := by
  unfold linspace
  match n, h with
  | 1, _ => rfl
  | (k + 2), _ =>
    rw [if_neg (by omega)]
    rw [List.range_succ_eq_map, List.map_cons]
    simp

lemma xCoords_length (r : Raster) : (xCoords r).length = r.width := by
  unfold xCoords
  exact linspace_length _ _ _

lemma yCoords_length (r : Raster) : (yCoords r).length = r.height := by
  unfold yCoords
  exact linspace_length _ _ _

instance : Std.Antisymm (fun (x y : ℚ) => x ≤ y) :=
  ⟨fun h h' => le_antisymm h h'⟩

lemma min?_le_max? (l : List ℚ) (a b : ℚ) (ha : l.min? = some a)
    (hb : l.max? = some b) : a ≤ b := by
  have h1 := (List.min?_eq_some_iff (fun x => le_refl x) (fun x y => min_choice x y)
    (fun x y z => le_min_iff)).mp ha
  have h2 := (List.max?_eq_some_iff (fun x => le_refl x) (fun x y => max_choice x y)
    (fun x y z => max_le_iff)).mp hb
  exact h1.2 b h2.1

lemma processAlgorithm_error (create : CreateGen) (p : Params) (r : Raster)
    (e : ProcError) (h : computeLevels p r = Except.error e) :
    processAlgorithm create p r = Except.error e := by
  unfold processAlgorithm
  rw [h]

lemma processAlgorithm_createError (create : CreateGen) (p : Params) (r : Raster)
    (levels : List PyFloat) (msg : String)
    (hlv : computeLevels p r = Except.ok levels)
    (hcr : create (xCoords r) (yCoords r) r.data r.nodata = Except.error msg) :
    processAlgorithm create p r = Except.error (ProcError.generatorCreation msg) := by
  unfold processAlgorithm
  rw [hlv, hcr]

lemma processAlgorithm_run (create : CreateGen) (p : Params) (r : Raster)
    (levels : List PyFloat) (gen : Gen)
    (hlv : computeLevels p r = Except.ok levels)
    (hcr : create (xCoords r) (yCoords r) r.data r.nodata = Except.ok gen) :
    processAlgorithm create p r =
      Except.ok { features := (runLevels gen 0 levels).1,
                  errors := (runLevels gen 0 levels).2 } := by
  unfold processAlgorithm
  rw [hlv, hcr]

lemma intervalLevels_eq_spec (s vmin vmax : ℚ) (hs : 0 < s) (h : vmin ≤ vmax) :
    intervalLevels s vmin vmax = specIntervalLevels s vmin vmax := by
  have hs0 : s ≠ 0 := ne_of_gt hs
  have hFC : ⌊vmin / s⌋ ≤ ⌈vmax / s⌉ :=
    le_trans (Int.floor_mono ((div_le_div_iff_of_pos_right hs).mpr h))
      (Int.floor_le_ceil _)
  unfold intervalLevels arange specIntervalLevels
  have harg : (((⌈vmax / s⌉ : ℤ) : ℚ) * s + s - ((⌊vmin / s⌋ : ℤ) : ℚ) * s) / s
      = ((⌈vmax / s⌉ - ⌊vmin / s⌋ + 1 : ℤ) : ℚ) := by
    push_cast
    field_simp
    ring
  rw [harg, Int.ceil_intCast]
  have hn : (⌈vmax / s⌉ - ⌊vmin / s⌋ + 1).toNat
      = (⌈vmax / s⌉ - ⌊vmin / s⌋).toNat + 1 := by omega
  rw [hn]
  refine List.map_congr_left ?_
  intro i _
  push_cast
  ring

/-! ## Claim theorems -/

/-- C1: In Interval mode with a positive step, the contour levels computed by
the level derivation are exactly the arithmetic sequence from
`floor(vmin/step)*step` to `ceil(vmax/step)*step` inclusive, stepping by
`step`, where `vmin` and `vmax` are the minimum and maximum grid values with
masked cells ignored. -/
theorem C1_interval_level_sequence (p : Params) (r : Raster) (vmin vmax : ℚ)
    (hmode : p.mode = Mode.interval) (hpos : 0 < p.interval)
    (hmin : (unmaskedValues r).min? = some vmin)
    (hmax : (unmaskedValues r).max? = some vmax) :
    computeLevels p r =
      Except.ok ((specIntervalLevels p.interval vmin vmax).map PyFloat.finite) := by
  have hle : vmin ≤ vmax := min?_le_max? _ _ _ hmin hmax
  obtain ⟨m, i, s⟩ := p
  cases hmode
  simp only [computeLevels]
  rw [if_neg (not_le.mpr hpos), hmin, hmax]
  show Except.ok ((intervalLevels i vmin vmax).map PyFloat.finite)
      = Except.ok ((specIntervalLevels i vmin vmax).map PyFloat.finite)
  rw [intervalLevels_eq_spec i vmin vmax hpos hle]

/-- Witness for C1: on a concrete unmasked 2×2 grid with values spanning
−7 to 23 and step 10, the levels are −10, 0, 10, 20, 30. -/
theorem C1_witness :
    computeLevels ⟨Mode.interval, 10, ""⟩ rC1 =
      Except.ok ((specIntervalLevels 10 (-7) 23).map PyFloat.finite) :=
  C1_interval_level_sequence ⟨Mode.interval, 10, ""⟩ rC1 (-7) 23 rfl (by norm_num)
    (by decide) (by decide)

/-- C2 counterexample: on a concrete well-formed, entirely masked 2×2 grid in
Interval mode the run fails with the unhandled masked-reduction error, which
the spec taxonomy classifies as an unclassified failure — not as the distinct
`EmptyDataError` the claim asserts (no raise site of the code maps to
`EmptyDataError`). -/
theorem C2_counterexample :
    processAlgorithm contourpyCreate ⟨Mode.interval, 1, ""⟩ rAllMasked =
      Except.error ProcError.maskedMinMax ∧
    specClassify ProcError.maskedMinMax = SpecErrorClass.other := by
  constructor
  · rfl
  · rfl

/-- C2 (amended): for every well-formed, entirely masked grid, in Interval
mode with a positive interval, the run fails — producing no output — but with
the unhandled NumPy masked-reduction failure rather than a designed
`EmptyDataError`; the code defines no such error. -/
theorem C2_all_masked_behaviour (create : CreateGen) (p : Params) (r : Raster)
    (hmode : p.mode = Mode.interval) (hpos : 0 < p.interval)
    (hmask : unmaskedValues r = []) :
    processAlgorithm create p r = Except.error ProcError.maskedMinMax ∧
    specClassify ProcError.maskedMinMax ≠ SpecErrorClass.emptyData := by
  refine ⟨processAlgorithm_error _ _ _ _ ?_, by decide⟩
  obtain ⟨m, i, s⟩ := p
  cases hmode
  simp only [computeLevels]
  rw [if_neg (not_le.mpr hpos), hmask]
  rfl

/-- Witness for C2's amended theorem at the concrete all-masked grid. -/
theorem C2_witness :
    processAlgorithm contourpyCreate ⟨Mode.interval, 2, ""⟩ rAllMasked =
      Except.error ProcError.maskedMinMax ∧
    specClassify ProcError.maskedMinMax ≠ SpecErrorClass.emptyData :=
  C2_all_masked_behaviour contourpyCreate ⟨Mode.interval, 2, ""⟩ rAllMasked rfl
    (by norm_num) (by decide)

/-- C3 counterexample: a well-formed grid of width 1 does fail, but with the
re-raised generator-creation error (spec class: unclassified), not with
`InvalidInputError` as the claim asserts; no dimension validation of the
code's own precedes it. -/
theorem C3_counterexample :
    processAlgorithm contourpyCreate ⟨Mode.explicitLevels, 10, "0"⟩ rThin =
      Except.error (ProcError.generatorCreation "x and y must be at least 2x2") ∧
    specClassify (ProcError.generatorCreation "x and y must be at least 2x2") =
      SpecErrorClass.other := by
  constructor
  · rfl
  · rfl

/-- C3 (amended): the code performs no dimension validation of its own: the
axis arrays are constructed with exactly `width` and `height` entries, so a
dimension/axis-length mismatch cannot arise; a grid with `width < 2` or
`height < 2` (once level derivation has succeeded) is rejected by the
external generator's creation, reported as a generator-creation failure —
which the spec taxonomy does not classify as `InvalidInputError`. -/
theorem C3_dimension_validation (p : Params) (r : Raster) (levels : List PyFloat)
    (hlv : computeLevels p r = Except.ok levels)
    (hdim : r.width < 2 ∨ r.height < 2) :
    (xCoords r).length = r.width ∧ (yCoords r).length = r.height ∧
    processAlgorithm contourpyCreate p r =
      Except.error (ProcError.generatorCreation "x and y must be at least 2x2") ∧
    specClassify (ProcError.generatorCreation "x and y must be at least 2x2") ≠
      SpecErrorClass.invalidInput := by
  refine ⟨xCoords_length r, yCoords_length r, ?_, by decide⟩
  have hcr : contourpyCreate (xCoords r) (yCoords r) r.data r.nodata =
      Except.error "x and y must be at least 2x2" := by
    unfold contourpyCreate
    rw [if_pos]
    rcases hdim with h | h
    · exact Or.inl (by rw [xCoords_length]; exact h)
    · exact Or.inr (by rw [yCoords_length]; exact h)
  exact processAlgorithm_createError contourpyCreate p r levels _ hlv hcr

/-- Witness for C3's amended theorem at the concrete width-1 grid. -/
theorem C3_witness :
    (xCoords rThin).length = rThin.width ∧ (yCoords rThin).length = rThin.height ∧
    processAlgorithm contourpyCreate ⟨Mode.explicitLevels, 10, "0"⟩ rThin =
      Except.error (ProcError.generatorCreation "x and y must be at least 2x2") ∧
    specClassify (ProcError.generatorCreation "x and y must be at least 2x2") ≠
      SpecErrorClass.invalidInput :=
  C3_dimension_validation ⟨Mode.explicitLevels, 10, "0"⟩ rThin [PyFloat.finite 0]
    (by decide) (Or.inl (by decide))

/-- The features of exactly those levels whose `lines` call succeeds, in
level order, starting at level index `i`: a failing level contributes no
features, every succeeding level contributes its filtered lines. -/
def okFeatures (gen : Gen) : Nat → List PyFloat → List Feature
  | _, [] => []
  | i, l :: ls =>
    (match gen l with
     | Except.ok lines => levelFeatures l i lines
     | Except.error _ => []) ++ okFeatures gen (i + 1) ls

lemma runLevels_fst (gen : Gen) : ∀ (i : Nat) (ls : List PyFloat),
    (runLevels gen i ls).1 = okFeatures gen i ls := by
  intro i ls
  induction ls generalizing i with
  | nil => rfl
  | cons l ls ih =>
    unfold runLevels okFeatures
    cases h : gen l with
    | error msg => simp [h, ih]
    | ok lines => simp [h, ih]

lemma runLevels_snd_mem (gen : Gen) : ∀ (i j : Nat) (ls : List PyFloat)
    (l : PyFloat) (msg : String), ls[j]? = some l → gen l = Except.error msg →
    (i + j, msg) ∈ (runLevels gen i ls).2 := by
  intro i j ls
  induction ls generalizing i j with
  | nil => intro l msg h _; simp at h
  | cons hd tl ih =>
    intro l msg hj hfail
    cases j with
    | zero =>
      simp only [List.getElem?_cons_zero, Option.some.injEq] at hj
      subst hj
      unfold runLevels
      rw [hfail]
      simp
    | succ j' =>
      rw [List.getElem?_cons_succ] at hj
      have hmem := ih (i + 1) j' l msg hj hfail
      have harith : i + (j' + 1) = (i + 1) + j' := by omega
      rw [harith]
      unfold runLevels
      cases h : gen hd with
      | error m => simpa [h] using Or.inr hmem
      | ok lines => simpa [h] using hmem

/-- C4: if the per-level contour generation fails for one level of the level
set, that level is skipped with an error report recorded for it, the loop
still processes every remaining level, and the run returns exactly the
polylines produced for the levels that succeeded — a partial result, not an
aborted run. -/
theorem C4_level_failure_skipped (create : CreateGen) (p : Params) (r : Raster)
    (levels : List PyFloat) (gen : Gen) (j : Nat) (l : PyFloat) (msg : String)
    (hlv : computeLevels p r = Except.ok levels)
    (hcr : create (xCoords r) (yCoords r) r.data r.nodata = Except.ok gen)
    (hj : levels[j]? = some l) (hfail : gen l = Except.error msg) :
    processAlgorithm create p r =
      Except.ok { features := okFeatures gen 0 levels,
                  errors := (runLevels gen 0 levels).2 } ∧
    (j, msg) ∈ (runLevels gen 0 levels).2 := by
  constructor
  · rw [processAlgorithm_run create p r levels gen hlv hcr, runLevels_fst]
  · simpa using runLevels_snd_mem gen 0 j levels l msg hj hfail

/-- Witness for C4: with three explicit levels 0, 1, 2 and a generator that
fails only at level 1, the run succeeds, records the error for index 1, and
keeps the polylines of levels 0 and 2. -/
theorem C4_witness :
    processAlgorithm createPartial ⟨Mode.explicitLevels, 10, "0,1,2"⟩ r2x2 =
      Except.ok { features := okFeatures genPartial 0
                    [PyFloat.finite 0, PyFloat.finite 1, PyFloat.finite 2],
                  errors := (runLevels genPartial 0
                    [PyFloat.finite 0, PyFloat.finite 1, PyFloat.finite 2]).2 } ∧
    (1, "boom") ∈ (runLevels genPartial 0
      [PyFloat.finite 0, PyFloat.finite 1, PyFloat.finite 2]).2 :=
  C4_level_failure_skipped createPartial ⟨Mode.explicitLevels, 10, "0,1,2"⟩ r2x2
    [PyFloat.finite 0, PyFloat.finite 1, PyFloat.finite 2] genPartial 1
    (PyFloat.finite 1) "boom" (by decide) rfl (by decide) (by decide)

/-- C5 counterexample: the claim requires a failure with `InvalidInputError`
when a level token is non-finite, but the levels string `"nan"` parses
successfully (CPython `float("nan")` succeeds) and the run completes without
any error. -/
theorem C5_counterexample :
    processAlgorithm contourpyCreate ⟨Mode.explicitLevels, 10, "nan"⟩ r2x2 =
      Except.ok { features := [], errors := [] } := by decide

/-- C5 (amended): in Explicit mode the run fails with an invalid-input class
error exactly when the levels string is empty or some comma-separated token
does not parse as a Python float — `"a,b"` is such a failure — but
non-finite tokens such as `"nan"` parse successfully and are not rejected. -/
theorem C5_explicit_level_validation (create : CreateGen) (p : Params) (r : Raster)
    (hmode : p.mode = Mode.explicitLevels) :
    ((∃ e, processAlgorithm create p r = Except.error e ∧
        specClassify e = SpecErrorClass.invalidInput) ↔
      (p.levelsStr = "" ∨ parseLevels p.levelsStr = none)) ∧
    parseLevels "a,b" = none ∧ pyFloatOfString "nan" = some PyFloat.nan := by
  refine ⟨?_, by decide, by decide⟩
  obtain ⟨m, i, s⟩ := p
  cases hmode
  by_cases hs : s = ""
  · subst hs
    constructor
    · intro _
      exact Or.inl rfl
    · intro _
      exact ⟨ProcError.emptyLevels, processAlgorithm_error _ _ _ _ rfl, rfl⟩
  · rcases hp : parseLevels s with _ | ls
    · constructor
      · intro _
        exact Or.inr rfl
      · intro _
        refine ⟨ProcError.invalidLevelsFormat, processAlgorithm_error _ _ _ _ ?_, rfl⟩
        simp only [computeLevels]
        rw [if_neg hs, hp]
    · have hlv : computeLevels ⟨Mode.explicitLevels, i, s⟩ r = Except.ok ls := by
        simp only [computeLevels]
        rw [if_neg hs, hp]
      constructor
      · rintro ⟨e, he, hcls⟩
        cases hcr : create (xCoords r) (yCoords r) r.data r.nodata with
        | error msg =>
          rw [processAlgorithm_createError create _ r ls msg hlv hcr] at he
          injection he with h1
          rw [← h1] at hcls
          simp [specClassify] at hcls
        | ok gen =>
          rw [processAlgorithm_run create _ r ls gen hlv hcr] at he
          simp at he
      · rintro (h | h)
        · exact absurd h hs
        · simp at h

/-- Witness for C5's amended theorem: with an empty levels string the run
fails with an invalid-input class error, matching the right-hand side. -/
theorem C5_witness :
    ((∃ e, processAlgorithm contourpyCreate ⟨Mode.explicitLevels, 1, ""⟩ r2x2 =
        Except.error e ∧ specClassify e = SpecErrorClass.invalidInput) ↔
      (("" : String) = "" ∨ parseLevels "" = none)) ∧
    parseLevels "a,b" = none ∧ pyFloatOfString "nan" = some PyFloat.nan :=
  C5_explicit_level_validation contourpyCreate ⟨Mode.explicitLevels, 1, ""⟩ r2x2 rfl

/-- C6: in Interval mode a zero or negative interval makes the run fail with
the invalid-interval error — an invalid-input class error — before level
derivation, generator creation or any contour emission, so no partial result
is produced; this holds for every raster and every generator. -/
theorem C6_nonpositive_interval (create : CreateGen) (p : Params) (r : Raster)
    (hmode : p.mode = Mode.interval) (hint : p.interval ≤ 0) :
    processAlgorithm create p r = Except.error ProcError.invalidInterval ∧
    specClassify ProcError.invalidInterval = SpecErrorClass.invalidInput := by
  refine ⟨processAlgorithm_error _ _ _ _ ?_, rfl⟩
  obtain ⟨m, i, s⟩ := p
  cases hmode
  simp only [computeLevels]
  rw [if_pos hint]

/-- Witness for C6 at interval 0 on a concrete grid. -/
theorem C6_witness :
    processAlgorithm contourpyCreate ⟨Mode.interval, 0, ""⟩ r2x2 =
      Except.error ProcError.invalidInterval ∧
    specClassify ProcError.invalidInterval = SpecErrorClass.invalidInput :=
  C6_nonpositive_interval contourpyCreate ⟨Mode.interval, 0, ""⟩ r2x2 rfl (le_refl 0)

/-- C7 counterexample: on a concrete 2×2 raster over extent [0,2]×[0,2] the
first y coordinate is 3/2 = `yMax - y_res/2`, not the claimed
`yMin + y_res/2` = 1/2: the pixel-center claim fails for the y axis. -/
theorem C7_counterexample :
    (yCoords r2x2).head? ≠
      some (r2x2.extent.yMin + r2x2.extent.h / (r2x2.height : ℚ) / 2) := by
  decide

/-- C7 (amended): each axis array has one entry per grid dimension; the x
axis starts at `xMin + x_res/2` as claimed, but the y axis is descending:
its first coordinate is `yMax - y_res/2`, so "first coordinate = extent
minimum + half resolution" holds for the x axis only. -/
theorem C7_pixel_center_axes (r : Raster) (hw : 1 ≤ r.width) (hh : 1 ≤ r.height) :
    (xCoords r).length = r.width ∧ (yCoords r).length = r.height ∧
    (xCoords r).head? = some (r.extent.xMin + r.extent.w / (r.width : ℚ) / 2) ∧
    (yCoords r).head? = some (r.extent.yMax - r.extent.h / (r.height : ℚ) / 2) :=
  ⟨xCoords_length r, yCoords_length r,
   linspace_head? _ _ _ hw, linspace_head? _ _ _ hh⟩

/-- Witness for C7's amended theorem at the concrete 2×2 raster. -/
theorem C7_witness :
    (xCoords r2x2).length = r2x2.width ∧ (yCoords r2x2).length = r2x2.height ∧
    (xCoords r2x2).head? =
      some (r2x2.extent.xMin + r2x2.extent.w / (r2x2.width : ℚ) / 2) ∧
    (yCoords r2x2).head? =
      some (r2x2.extent.yMax - r2x2.extent.h / (r2x2.height : ℚ) / 2) :=
  C7_pixel_center_axes r2x2 (by decide) (by decide)

lemma mem_levelFeatures (l : PyFloat) (i : Nat) (lines : List (List Point))
    (f : Feature) (hf : f ∈ levelFeatures l i lines) :
    f.elevation = l ∧ f.level_id = i ∧ 2 ≤ f.points.length := by
  unfold levelFeatures at hf
  obtain ⟨line, _, hline⟩ := List.mem_filterMap.mp hf
  by_cases hl : line.length < 2
  · rw [if_pos hl] at hline
    exact absurd hline (by simp)
  · rw [if_neg hl] at hline
    injection hline with h
    subst h
    exact ⟨rfl, rfl, Nat.le_of_not_lt hl⟩

lemma runLevels_points_two (gen : Gen) : ∀ (i : Nat) (ls : List PyFloat)
    (f : Feature), f ∈ (runLevels gen i ls).1 → 2 ≤ f.points.length := by
  intro i ls
  induction ls generalizing i with
  | nil =>
    intro f hf
    simp [runLevels] at hf
  | cons l tl ih =>
    intro f hf
    unfold runLevels at hf
    cases h : gen l with
    | error msg =>
      rw [h] at hf
      exact ih (i + 1) f hf
    | ok lines =>
      rw [h] at hf
      rcases List.mem_append.mp hf with h1 | h2
      · exact (mem_levelFeatures l i lines f h1).2.2
      · exact ih (i + 1) f h2

lemma processAlgorithm_ok_inv (create : CreateGen) (p : Params) (r : Raster)
    (out : Output) (h : processAlgorithm create p r = Except.ok out) :
    ∃ levels gen, computeLevels p r = Except.ok levels ∧
      create (xCoords r) (yCoords r) r.data r.nodata = Except.ok gen ∧
      out.features = (runLevels gen 0 levels).1 ∧
      out.errors = (runLevels gen 0 levels).2 := by
  unfold processAlgorithm at h
  cases hlv : computeLevels p r with
  | error e =>
    rw [hlv] at h
    simp at h
  | ok levels =>
    rw [hlv] at h
    cases hcr : create (xCoords r) (yCoords r) r.data r.nodata with
    | error msg =>
      rw [hcr] at h
      simp at h
    | ok gen =>
      rw [hcr] at h
      simp only [Except.ok.injEq] at h
      exact ⟨levels, gen, rfl, rfl, by rw [← h], by rw [← h]⟩

/-- C8 counterexample: the emission filter (lines 309–338) only drops lines
with fewer than 2 points; a generator line whose two vertices coincide is
emitted unchanged, so "every pair of consecutive points is distinct / no
zero-length segment is retained" fails on the code. -/
theorem C8_counterexample :
    processAlgorithm createDup ⟨Mode.explicitLevels, 10, "0"⟩ r2x2 =
      Except.ok { features := [{ points := [(0, 0), (0, 0)],
                                 elevation := PyFloat.finite 0, level_id := 0 }],
                  errors := [] } ∧
    ¬ List.Chain' (fun a b : Point => a ≠ b) [((0 : ℚ), (0 : ℚ)), (0, 0)] :=
  ⟨by decide, fun hc => (List.chain'_cons.mp hc).1 rfl⟩

/-- C8 (amended): every polyline emitted to the output has at least 2 points
(the shape filter drops shorter ones); distinctness of consecutive points is
not enforced by the code — it would have to come from the external contour
library's output. -/
theorem C8_min_two_points (create : CreateGen) (p : Params) (r : Raster)
    (out : Output) (h : processAlgorithm create p r = Except.ok out) :
    ∀ f ∈ out.features, 2 ≤ f.points.length := by
  obtain ⟨levels, gen, _, _, hfeat, _⟩ := processAlgorithm_ok_inv create p r out h
  intro f hf
  rw [hfeat] at hf
  exact runLevels_points_two gen 0 levels f hf

/-- The output of the concrete run used by the C8 witness: one emitted
polyline at level 2. -/
def outOneLine : Output := ⟨[⟨[(0, 0), (1, 1)], PyFloat.finite 2, 0⟩], []⟩

/-- Witness for C8's amended theorem: the one polyline emitted by a concrete
successful run has at least 2 points. -/
theorem C8_witness :
    2 ≤ (⟨[(0, 0), (1, 1)], PyFloat.finite 2, 0⟩ : Feature).points.length :=
  C8_min_two_points createPartial ⟨Mode.explicitLevels, 10, "2"⟩ r2x2 outOneLine
    (by decide) ⟨[(0, 0), (1, 1)], PyFloat.finite 2, 0⟩ (by decide)

lemma pairwise_le_of_const (l : List Nat) (i : Nat) (h : ∀ n ∈ l, n = i) :
    l.Pairwise (fun a b => a ≤ b) := by
  induction l with
  | nil => exact List.Pairwise.nil
  | cons x xs ih =>
    refine List.Pairwise.cons ?_ (ih fun n hn => h n (List.mem_cons_of_mem x hn))
    intro y hy
    rw [h x (List.mem_cons_self x xs), h y (List.mem_cons_of_mem x hy)]

lemma runLevels_mem_attrib (gen : Gen) : ∀ (i : Nat) (ls : List PyFloat)
    (f : Feature), f ∈ (runLevels gen i ls).1 →
    ∃ j l, ls[j]? = some l ∧ f.level_id = i + j ∧ f.elevation = l := by
  intro i ls
  induction ls generalizing i with
  | nil =>
    intro f hf
    simp [runLevels] at hf
  | cons hd tl ih =>
    intro f hf
    unfold runLevels at hf
    cases h : gen hd with
    | error msg =>
      rw [h] at hf
      obtain ⟨j, l, h1, h2, h3⟩ := ih (i + 1) f hf
      exact ⟨j + 1, l, by simpa using h1, by omega, h3⟩
    | ok lines =>
      rw [h] at hf
      rcases List.mem_append.mp hf with h1 | h2
      · obtain ⟨he, hi, _⟩ := mem_levelFeatures hd i lines f h1
        exact ⟨0, hd, by simp, by omega, he⟩
      · obtain ⟨j, l, h1, h2, h3⟩ := ih (i + 1) f h2
        exact ⟨j + 1, l, by simpa using h1, by omega, h3⟩

lemma runLevels_ids_sorted (gen : Gen) : ∀ (i : Nat) (ls : List PyFloat),
    ((runLevels gen i ls).1.map (fun f => f.level_id)).Pairwise (fun a b => a ≤ b) ∧
    ∀ n ∈ (runLevels gen i ls).1.map (fun f => f.level_id), i ≤ n := by
  intro i ls
  induction ls generalizing i with
  | nil => exact ⟨by simp [runLevels], by simp [runLevels]⟩
  | cons hd tl ih =>
    unfold runLevels
    cases h : gen hd with
    | error msg =>
      obtain ⟨hs, hb⟩ := ih (i + 1)
      exact ⟨hs, fun n hn => le_trans (by omega) (hb n hn)⟩
    | ok lines =>
      obtain ⟨hs, hb⟩ := ih (i + 1)
      have hall : ∀ n ∈ (levelFeatures hd i lines).map (fun f => f.level_id),
          n = i := by
        intro n hn
        obtain ⟨f, hf, hfn⟩ := List.mem_map.mp hn
        rw [← hfn, (mem_levelFeatures hd i lines f hf).2.1]
      constructor
      · rw [List.map_append, List.pairwise_append]
        refine ⟨pairwise_le_of_const _ i hall, hs, ?_⟩
        intro a ha b hb2
        rw [hall a ha]
        exact le_trans (by omega) (hb b hb2)
      · intro n hn
        rw [List.map_append, List.mem_append] at hn
        rcases hn with h1 | h2
        · rw [hall n h1]
        · exact le_trans (by omega) (hb n h2)

/-- C9: every emitted polyline carries its iso-value as its `elevation`
attribute and its level's position in the input level list as its `level_id`
attribute — `levels[f.level_id] = f.elevation` — and the emitted features
appear grouped by level in the order of the input level list (their
`level_id`s are nondecreasing in emission order). -/
theorem C9_level_attribution (create : CreateGen) (p : Params) (r : Raster)
    (levels : List PyFloat) (out : Output)
    (hlv : computeLevels p r = Except.ok levels)
    (h : processAlgorithm create p r = Except.ok out) :
    (∀ f ∈ out.features, levels[f.level_id]? = some f.elevation) ∧
    (out.features.map (fun f => f.level_id)).Pairwise (fun a b => a ≤ b) := by
  obtain ⟨levels', gen, hlv', hcr, hfeat, herr⟩ := processAlgorithm_ok_inv create p r out h
  rw [hlv] at hlv'
  injection hlv' with he
  subst he
  constructor
  · intro f hf
    rw [hfeat] at hf
    obtain ⟨j, l, h1, h2, h3⟩ := runLevels_mem_attrib gen 0 levels f hf
    rw [h2, h3]
    simpa using h1
  · rw [hfeat]
    exact (runLevels_ids_sorted gen 0 levels).1

/-- The output of the concrete run used by the C9 witness: levels 0, 1, 2
with level 1 failing, leaving two polylines at levels 0 and 2. -/
def outTwoLevels : Output :=
  ⟨[⟨[(0, 0), (1, 1)], PyFloat.finite 0, 0⟩,
    ⟨[(0, 0), (1, 1)], PyFloat.finite 2, 2⟩], [(1, "boom")]⟩

/-- Witness for C9 on a concrete run with levels 0, 1, 2 where level 1
fails: the two emitted polylines carry elevations 0 and 2 with level ids
0 and 2, in nondecreasing level order. -/
theorem C9_witness :
    (∀ f ∈ outTwoLevels.features,
      [PyFloat.finite 0, PyFloat.finite 1, PyFloat.finite 2][f.level_id]? =
        some f.elevation) ∧
    (outTwoLevels.features.map (fun f => f.level_id)).Pairwise
      (fun a b => a ≤ b) :=
  C9_level_attribution createPartial ⟨Mode.explicitLevels, 10, "0,1,2"⟩ r2x2
    [PyFloat.finite 0, PyFloat.finite 1, PyFloat.finite 2] outTwoLevels
    (by decide) (by decide)

/-- C10: in Explicit (custom-levels) mode the interval parameter has no
effect on the outcome: for any two interval values, including zero and
negative ones, the run neither raises an interval error nor changes its
result — the outputs are identical for identical remaining inputs. -/
theorem C10_interval_irrelevant_in_explicit (create : CreateGen) (r : Raster)
    (s : String) (i1 i2 : ℚ) :
    processAlgorithm create ⟨Mode.explicitLevels, i1, s⟩ r =
      processAlgorithm create ⟨Mode.explicitLevels, i2, s⟩ r := rfl

end FastContour
